import Mathlib

/-!
Shallow embedding of the dual-backend notification session layer of
notify-rust (files `src/xdg/mod.rs` and `src/xdg/zbus_rs.rs`).

The message-bus client libraries and the notification server are external
collaborators; they are modelled by an oracle (`Bus`) giving, for each
backend-side client, the outcome of opening a session connection and of
each remote method call.  The legacy backend implementation
(`src/xdg/dbus_rs.rs`) is not part of the examined sources; its
operations are modelled from the specification and are marked as such in
their doc comments.  Rust panics (`todo!`, `.unwrap()` on an error or an
undecodable reply body) are modelled as explicit outcomes, never as
returned `Result` values.
-/

set_option autoImplicit false

namespace NotifyRust

/-- A session-bus connection, opaque to this layer.  Distinct tokens stand
for distinct connections handed out by the bus client. -/
structure Connection where
  token : Nat
  deriving DecidableEq, Repr

/-- Timeout policy of a notification.  Modelled from the spec: the wire
format is a signed 32-bit integer (spec section 6), with the conventional
encoding default = -1 and never = 0. -/
inductive Timeout where
  | default
  | never
  | milliseconds (ms : Nat)
  deriving DecidableEq, Repr

/-- The signed integer sent on the wire for a timeout policy
(`timeout.into_i32()` in `send_notificaion_via_connection`). -/
def Timeout.into_i32 : Timeout → Int
  | .default => -1
  | .never => 0
  | .milliseconds ms => Int.ofNat ms

/-- A notification hint.  Modelled from the spec: hint serialization rules
are out of scope, a hint is an entry of the name-to-value mapping. -/
structure Hint where
  name : String
  value : String
  deriving DecidableEq, Repr

/-- The hints-as-map argument of the "Notify" call
(`crate::hints::hints_to_map`, shared by both backends; serialization
internals are out of scope per the spec). -/
def hints_to_map (hints : List Hint) : List (String × String) :=
  hints.map fun h => (h.name, h.value)

/-- The `Notification` value, external and consumed read-only here: the
fields the session layer marshals, plus the optional previously-assigned
identifier (spec section 3). -/
structure Notification where
  appname : String
  summary : String
  body : String
  icon : String
  actions : List String
  hints : List Hint
  timeout : Timeout
  id : Option Nat
  deriving DecidableEq, Repr

/-- Return value of `get_server_information()` (from `src/xdg/mod.rs`). -/
structure ServerInformation where
  name : String
  vendor : String
  version : String
  spec_version : String
  deriving DecidableEq, Repr

/-- The positional argument tuple of a "Notify" method call:
`(appname, replace_id, icon, summary, body, actions, hints-as-map,
timeout-as-signed-int)`. -/
structure NotifyArgs where
  appname : String
  replace_id : Nat
  icon : String
  summary : String
  body : String
  actions : List String
  hints : List (String × String)
  timeout : Int
  deriving DecidableEq, Repr

/-- Outcome of a remote method call as seen by the bus client:
the call itself can fail (`busError`, covering transport failure and
error replies), or the reply body can fail to parse as the expected type
(`decodeFailure`), or a value of the expected type is decoded. -/
inductive CallResult (α : Type) where
  | busError (msg : String)
  | decodeFailure
  | ok (a : α)
  deriving DecidableEq, Repr

/-- How an operation of this layer ends when it does not produce a value:
either an error value is returned to the caller (the `?` operator on a
failed call), or the thread panics (`todo!`, or `.unwrap()` on an error
or on an undecodable reply body). -/
inductive Err where
  | bus (msg : String)
  | panicUnwrap
  deriving DecidableEq, Repr

/-- Oracle for the two external bus-client libraries and the server.
Each backend has its own client implementation (spec section 2), so each
has its own session-opening outcome and per-method reply behaviour. -/
structure Bus where
  zbus_new_session : Except String Connection
  zbus_notify : Connection → NotifyArgs → CallResult Nat
  zbus_get_server_information : Connection → CallResult ServerInformation
  dbus_new_session : Except String Connection
  dbus_notify : Connection → NotifyArgs → CallResult Nat
  dbus_get_server_information : Connection → CallResult ServerInformation
  dbus_get_capabilities : Connection → CallResult (List String)
  dbus_close_notification : Connection → Nat → CallResult Unit

/-- Well-known bus name (from `src/xdg/mod.rs`, non-debug build). -/
def NOTIFICATION_NAMESPACE : String := "org.freedesktop.Notifications"

/-- Well-known object path (from `src/xdg/mod.rs`, non-debug build). -/
def NOTIFICATION_OBJECTPATH : String := "/org/freedesktop/Notifications"

/-- A signal observed on a handle connection: either the user invoked an
action, or the server closed the notification (spec section 6). -/
inductive Signal where
  | actionInvoked (id : Nat) (action_key : String)
  | notificationClosed (id : Nat) (reason : Nat)
  deriving DecidableEq, Repr

/-- Outcome of a blocking wait on the signal stream: the callback was
invoked (with its result), or no matching signal ever arrives and the
caller blocks forever, or the thread panics first. -/
inductive WaitOutcome (α : Type) where
  | blocked
  | panicked (msg : String)
  | invoked (a : α)
  deriving DecidableEq, Repr

/-- A bus method call issued with its result discarded; recorded so that
fire-and-forget effects (the close call) remain observable. -/
inductive BusCall where
  | closeNotification (conn : Connection) (id : Nat)
  deriving DecidableEq, Repr

/-- What `NotificationHandle::close` does from the caller's perspective:
it returns unit, or the thread panics. -/
inductive CloseOutcome where
  | returned
  | panicked (msg : String)
  deriving DecidableEq, Repr

namespace zbus_rs

/-- The positional argument tuple built inside
`send_notificaion_via_connection` (`src/xdg/zbus_rs.rs` lines 58-67). -/
def notify_args (notification : Notification) (id : Nat) : NotifyArgs :=
  { appname := notification.appname
    replace_id := id
    icon := notification.icon
    summary := notification.summary
    body := notification.body
    actions := notification.actions
    hints := hints_to_map notification.hints
    timeout := notification.timeout.into_i32 }

/-- `send_notificaion_via_connection` (name kept as in the source): issues
"Notify" with the positional tuple and interprets the reply body as a
u32.  A failed call is returned through `?`; `.body().unwrap()` panics on
an undecodable reply. -/
def send_notificaion_via_connection (bus : Bus) (notification : Notification)
    (id : Nat) (connection : Connection) : Except Err Nat :=
  match bus.zbus_notify connection (notify_args notification id) with
  | .busError msg => .error (.bus msg)
  | .decodeFailure => .error .panicUnwrap
  | .ok reply => .ok reply

/-- `ZbusNotificationHandle`: id, connection and notification snapshot
(`src/xdg/zbus_rs.rs` lines 8-12). -/
structure ZbusNotificationHandle where
  id : Nat
  connection : Connection
  notification : Notification
  deriving DecidableEq, Repr

/-- `ZbusNotificationHandle::new`. -/
def ZbusNotificationHandle.new (id : Nat) (connection : Connection)
    (notification : Notification) : ZbusNotificationHandle :=
  { id := id, connection := connection, notification := notification }

/-- `ZbusNotificationHandle::wait_for_action` is `todo!`: it panics before
reading any signal, so the closure is never invoked. -/
def ZbusNotificationHandle.wait_for_action {α : Type}
    (_h : ZbusNotificationHandle) (_signals : List Signal)
    (_invocation_closure : String → α) : WaitOutcome α :=
  .panicked "no action handling yet"

/-- `ZbusNotificationHandle::close` is `todo!`: it panics and issues no
bus call. -/
def ZbusNotificationHandle.close (_h : ZbusNotificationHandle) : CloseOutcome :=
  .panicked "can not close notification yet"

/-- `ZbusNotificationHandle::update`: re-sends the stored snapshot with
the stored identifier and assigns the reply to `self.id`.  The `.unwrap()`
panics on failure, in which case the assignment never happens; the second
component records the panic. -/
def ZbusNotificationHandle.update (bus : Bus) (h : ZbusNotificationHandle) :
    ZbusNotificationHandle × Option Err :=
  match send_notificaion_via_connection bus h.notification h.id h.connection with
  | .ok newId => ({ h with id := newId }, none)
  | .error e => (h, some e)

/-- `connect_and_send_notification` (`src/xdg/zbus_rs.rs` lines 74-79):
opens a new session connection, sends with `notification.id.unwrap_or(0)`
as the replace-identifier, and builds a handle from the server-assigned
identifier, the open connection and a clone of the notification. -/
def connect_and_send_notification (bus : Bus) (notification : Notification) :
    Except Err ZbusNotificationHandle :=
  match bus.zbus_new_session with
  | .error msg => .error (.bus msg)
  | .ok connection =>
    let inner_id := notification.id.getD 0
    match send_notificaion_via_connection bus notification inner_id connection with
    | .error e => .error e
    | .ok id => .ok (ZbusNotificationHandle.new id connection notification)

/-- `get_server_information` (`src/xdg/zbus_rs.rs` lines 81-93): opens a
session connection, calls "GetServerInformation", `.body().unwrap()`
panics on an undecodable reply. -/
def get_server_information (bus : Bus) : Except Err ServerInformation :=
  match bus.zbus_new_session with
  | .error msg => .error (.bus msg)
  | .ok connection =>
    match bus.zbus_get_server_information connection with
    | .busError msg => .error (.bus msg)
    | .decodeFailure => .error .panicUnwrap
    | .ok info => .ok info

end zbus_rs

namespace dbus_rs

/-- Modelled from the spec: `src/xdg/dbus_rs.rs` is not among the examined
sources.  The legacy backend marshals "Notify" with the same positional
arguments `(appname, id, icon, summary, body, actions, hints-as-map,
timeout-as-signed-int)` (spec sections 4.1 and 6). -/
def notify_args (notification : Notification) (id : Nat) : NotifyArgs :=
  { appname := notification.appname
    replace_id := id
    icon := notification.icon
    summary := notification.summary
    body := notification.body
    actions := notification.actions
    hints := hints_to_map notification.hints
    timeout := notification.timeout.into_i32 }

/-- Modelled from the spec: the legacy send-or-replace call, issuing
"Notify" through the legacy bus client and interpreting the single
unsigned 32-bit reply as the server-assigned identifier (spec section
4.1); an undecodable reply is a `DecodeError`-class failure. -/
def send_notification (bus : Bus) (notification : Notification)
    (id : Nat) (connection : Connection) : Except Err Nat :=
  match bus.dbus_notify connection (notify_args notification id) with
  | .busError msg => .error (.bus msg)
  | .decodeFailure => .error .panicUnwrap
  | .ok reply => .ok reply

/-- `DbusNotificationHandle`, structurally identical to the zbus handle:
id, connection and notification snapshot (spec section 4.2). -/
structure DbusNotificationHandle where
  id : Nat
  connection : Connection
  notification : Notification
  deriving DecidableEq, Repr

/-- Modelled from the spec: `DbusNotificationHandle::new`, mirroring the
constructor used by `NotificationHandle::for_dbus` in `src/xdg/mod.rs`. -/
def DbusNotificationHandle.new (id : Nat) (connection : Connection)
    (notification : Notification) : DbusNotificationHandle :=
  { id := id, connection := connection, notification := notification }

/-- Modelled from the spec: the legacy `connect_and_send_notification`
opens a new session connection, sends with `notification.id.unwrap_or(0)`
as the replace-identifier and returns a handle bound to the
server-assigned identifier, the open connection and the cloned
notification snapshot (spec sections 3 and 4.1). -/
def connect_and_send_notification (bus : Bus) (notification : Notification) :
    Except Err DbusNotificationHandle :=
  match bus.dbus_new_session with
  | .error msg => .error (.bus msg)
  | .ok connection =>
    let inner_id := notification.id.getD 0
    match send_notification bus notification inner_id connection with
    | .error e => .error e
    | .ok id => .ok (DbusNotificationHandle.new id connection notification)

/-- Modelled from the spec: the legacy `get_server_information` opens a
connection, invokes "GetServerInformation" and decodes the 4-tuple (spec
section 4.1). -/
def get_server_information (bus : Bus) : Except Err ServerInformation :=
  match bus.dbus_new_session with
  | .error msg => .error (.bus msg)
  | .ok connection =>
    match bus.dbus_get_server_information connection with
    | .busError msg => .error (.bus msg)
    | .decodeFailure => .error .panicUnwrap
    | .ok info => .ok info

/-- Modelled from the spec: the legacy `get_capabilities` opens a
connection, invokes "GetCapabilities" and returns the advertised strings
in server order, not sorted (spec section 4.1). -/
def get_capabilities (bus : Bus) : Except Err (List String) :=
  match bus.dbus_new_session with
  | .error msg => .error (.bus msg)
  | .ok connection =>
    match bus.dbus_get_capabilities connection with
    | .busError msg => .error (.bus msg)
    | .decodeFailure => .error .panicUnwrap
    | .ok caps => .ok caps

/-- The first signal of the stream concerning the given identifier, mapped
to the action name the callback receives: an `ActionInvoked` signal
yields its action key, a `NotificationClosed` signal yields the synthetic
`"__closed"` pseudo-action; signals carrying other identifiers are
skipped (spec sections 4.1 and 6). -/
def first_matching_action (id : Nat) : List Signal → Option String
  | [] => none
  | .actionInvoked i key :: rest =>
    if i = id then some key else first_matching_action id rest
  | .notificationClosed i _ :: rest =>
    if i = id then some "__closed" else first_matching_action id rest

/-- Modelled from the spec: the legacy `handle_action` subscribes to the
signal stream, filters by identifier, and invokes the callback exactly
once with the first matching action name; with no match it blocks the
calling thread forever (spec section 4.1). -/
def handle_action {α : Type} (id : Nat) (signals : List Signal)
    (func : String → α) : WaitOutcome α :=
  match first_matching_action id signals with
  | some action => .invoked (func action)
  | none => .blocked

/-- Modelled from the spec: `DbusNotificationHandle::wait_for_action`
delegates to `handle_action` bound to this handle's identifier and
connection (spec section 4.2). -/
def DbusNotificationHandle.wait_for_action {α : Type}
    (h : DbusNotificationHandle) (signals : List Signal)
    (invocation_closure : String → α) : WaitOutcome α :=
  handle_action h.id signals invocation_closure

/-- Modelled from the spec: `DbusNotificationHandle::update` re-sends the
stored snapshot with the stored identifier as replace-target and on
success overwrites its own identifier with the server's reply; a failed
update leaves the identifier unchanged (spec sections 4.2 and 7). -/
def DbusNotificationHandle.update (bus : Bus) (h : DbusNotificationHandle) :
    DbusNotificationHandle × Option Err :=
  match send_notification bus h.notification h.id h.connection with
  | .ok newId => ({ h with id := newId }, none)
  | .error e => (h, some e)

/-- Modelled from the spec: `DbusNotificationHandle::close` issues the
"CloseNotification" call for this identifier (spec section 4.2); the
outcome of that call is paired with the record of the call issued. -/
def DbusNotificationHandle.close (bus : Bus) (h : DbusNotificationHandle) :
    CallResult Unit × List BusCall :=
  (bus.dbus_close_notification h.connection h.id,
   [BusCall.closeNotification h.connection h.id])

end dbus_rs

/-- The backend variant tag of a handle (spec section 3: exactly one of
legacy or modern). -/
inductive Backend where
  | dbus
  | zbus
  deriving DecidableEq, Repr

/-- `NotificationHandleInner` (`src/xdg/mod.rs` lines 24-28): tagged union
over the two variant handle types. -/
inductive NotificationHandleInner where
  | dbus (h : dbus_rs.DbusNotificationHandle)
  | zbus (h : zbus_rs.ZbusNotificationHandle)
  deriving DecidableEq, Repr

/-- `NotificationHandle` (`src/xdg/mod.rs` lines 33-36): the public facade
over the tagged union. -/
structure NotificationHandle where
  inner : NotificationHandleInner
  deriving DecidableEq, Repr

/-- `NotificationHandle::for_dbus`. -/
def NotificationHandle.for_dbus (id : Nat) (connection : Connection)
    (notification : Notification) : NotificationHandle :=
  { inner := .dbus (dbus_rs.DbusNotificationHandle.new id connection notification) }

/-- `NotificationHandle::for_zbus`. -/
def NotificationHandle.for_zbus (id : Nat) (connection : Connection)
    (notification : Notification) : NotificationHandle :=
  { inner := .zbus (zbus_rs.ZbusNotificationHandle.new id connection notification) }

/-- The variant tag of a facade handle. -/
def NotificationHandle.backend (h : NotificationHandle) : Backend :=
  match h.inner with
  | .dbus _ => .dbus
  | .zbus _ => .zbus

/-- `NotificationHandle::id` (`src/xdg/mod.rs` lines 143-148): dispatch on
the tag, returning the active variant's stored identifier. -/
def NotificationHandle.id (h : NotificationHandle) : Nat :=
  match h.inner with
  | .dbus inner => inner.id
  | .zbus inner => inner.id

/-- The connection owned by the active variant handle. -/
def NotificationHandle.connectionOf (h : NotificationHandle) : Connection :=
  match h.inner with
  | .dbus inner => inner.connection
  | .zbus inner => inner.connection

/-- `Deref for NotificationHandle` (`src/xdg/mod.rs` lines 152-161): the
stored notification snapshot of the active variant. -/
def NotificationHandle.deref (h : NotificationHandle) : Notification :=
  match h.inner with
  | .dbus inner => inner.notification
  | .zbus inner => inner.notification

/-- `NotificationHandle::update` (`src/xdg/mod.rs` lines 135-140):
dispatch on the tag to the variant's `update`, which mutates the handle
in place; the second component records a panic of the underlying call. -/
def NotificationHandle.update (bus : Bus) (h : NotificationHandle) :
    NotificationHandle × Option Err :=
  match h.inner with
  | .dbus inner =>
    let r := dbus_rs.DbusNotificationHandle.update bus inner
    ({ inner := .dbus r.1 }, r.2)
  | .zbus inner =>
    let r := zbus_rs.ZbusNotificationHandle.update bus inner
    ({ inner := .zbus r.1 }, r.2)

/-- `NotificationHandle::wait_for_action` (`src/xdg/mod.rs` lines 53-61):
dispatch on the tag, consuming the handle. -/
def NotificationHandle.wait_for_action {α : Type} (h : NotificationHandle)
    (signals : List Signal) (invocation_closure : String → α) : WaitOutcome α :=
  match h.inner with
  | .dbus inner => inner.wait_for_action signals invocation_closure
  | .zbus inner => inner.wait_for_action signals invocation_closure

/-- `NotificationHandle::close` (`src/xdg/mod.rs` lines 79-84): dispatch
on the tag; the function returns unit, so for the dbus variant the value
returned by the underlying close call is dropped on the floor, while the
zbus variant panics.  The second component is the list of bus calls
issued. -/
def NotificationHandle.close (bus : Bus) (h : NotificationHandle) :
    CloseOutcome × List BusCall :=
  match h.inner with
  | .dbus inner =>
    let r := dbus_rs.DbusNotificationHandle.close bus inner
    (CloseOutcome.returned, r.2)
  | .zbus inner => (inner.close, [])

/-- `NotificationHandle::on_close` (`src/xdg/mod.rs` lines 97-113): both
arms wrap the user closure so that it runs only when the delivered action
name equals `"__closed"`.  The wrapped callback returns `some` of the
closure's result when the closure was invoked and `none` when the
delivered name was discarded. -/
def NotificationHandle.on_close {α : Type} (h : NotificationHandle)
    (signals : List Signal) (closure : Unit → α) : WaitOutcome (Option α) :=
  match h.inner with
  | .dbus inner => inner.wait_for_action signals fun action =>
      if action = "__closed" then some (closure ()) else none
  | .zbus inner => inner.wait_for_action signals fun action =>
      if action = "__closed" then some (closure ()) else none

/-- The process environment, looked up by variable name
(`std::env::var(name).is_ok()` holds exactly when the lookup yields a
value). -/
def EnvMap : Type := String → Option String

/-- `show_notification` (`src/xdg/mod.rs` lines 196-203): if the `ZBUS`
environment variable is set, delegate to the zbus backend, else to the
dbus backend, wrapping the variant handle into the facade. -/
def show_notification (env : EnvMap) (bus : Bus) (notification : Notification) :
    Except Err NotificationHandle :=
  if (env "ZBUS").isSome then
    (zbus_rs.connect_and_send_notification bus notification).map
      fun h => { inner := .zbus h }
  else
    (dbus_rs.connect_and_send_notification bus notification).map
      fun h => { inner := .dbus h }

/-- `get_capabilities` (`src/xdg/mod.rs` lines 208-210): delegates to the
dbus backend unconditionally; the process environment is passed
explicitly but the function consults no variable. -/
def get_capabilities (_env : EnvMap) (bus : Bus) : Except Err (List String) :=
  dbus_rs.get_capabilities bus

/-- `get_server_information` (`src/xdg/mod.rs` lines 217-224): if the
`ZBUS` environment variable is set, delegate to the zbus backend, else to
the dbus backend. -/
def get_server_information (env : EnvMap) (bus : Bus) :
    Except Err ServerInformation :=
  if (env "ZBUS").isSome then
    zbus_rs.get_server_information bus
  else
    dbus_rs.get_server_information bus

/-- `handle_action` (`src/xdg/mod.rs` lines 250-255): delegates to the
dbus backend unconditionally; the process environment is passed
explicitly but the function consults no variable. -/
def handle_action {α : Type} (_env : EnvMap) (id : Nat) (signals : List Signal)
    (func : String → α) : WaitOutcome α :=
  dbus_rs.handle_action id signals func

/-- The caller's notification value next to the handle a send produced;
the handle stores its own cloned snapshot. -/
structure CallerWorld where
  caller : Notification
  handle : NotificationHandle
  deriving DecidableEq, Repr

/-- A successful `show_notification` viewed together with the caller's
original notification value. -/
def send_world (env : EnvMap) (bus : Bus) (notification : Notification) :
    Except Err CallerWorld :=
  (show_notification env bus notification).map fun h =>
    { caller := notification, handle := h }

/-- The caller mutates their own notification value after the send. -/
def mutate_caller (f : Notification → Notification) (w : CallerWorld) :
    CallerWorld :=
  { w with caller := f w.caller }

/-- The oracle entry a given backend variant uses for "Notify". -/
def variantNotify (bus : Bus) : Backend → Connection → NotifyArgs → CallResult Nat
  | .dbus => bus.dbus_notify
  | .zbus => bus.zbus_notify

/-- The "Notify" argument marshalling a given backend variant uses. -/
def variant_notify_args : Backend → Notification → Nat → NotifyArgs
  | .dbus => dbus_rs.notify_args
  | .zbus => zbus_rs.notify_args

/-! Concrete values used to exercise the definitions. -/

/-- A concrete session connection. -/
def demoConnection : Connection := { token := 1 }

/-- A concrete server information record. -/
def demoInfo : ServerInformation :=
  { name := "demo", vendor := "demo", version := "1.0", spec_version := "1.2" }

/-- The scenario notification of spec section 8. -/
def demoNotification : Notification :=
  { appname := "t", summary := "hi", body := "", icon := "", actions := []
    hints := [], timeout := .default, id := none }

/-- A bus on which every operation succeeds; the zbus server assigns
identifier 42, the dbus server assigns identifier 9. -/
def okBus : Bus :=
  { zbus_new_session := .ok demoConnection
    zbus_notify := fun _ _ => .ok 42
    zbus_get_server_information := fun _ => .ok demoInfo
    dbus_new_session := .ok demoConnection
    dbus_notify := fun _ _ => .ok 9
    dbus_get_server_information := fun _ => .ok demoInfo
    dbus_get_capabilities := fun _ => .ok ["actions", "body"]
    dbus_close_notification := fun _ _ => .ok () }

/-- A bus on which every method call fails with an error reply. -/
def errBus : Bus :=
  { okBus with
    zbus_notify := fun _ _ => .busError "service not running"
    dbus_notify := fun _ _ => .busError "service not running"
    dbus_close_notification := fun _ _ => .busError "service not running" }

/-- A concrete facade handle of the modern (zbus) variant. -/
def demoZbusHandle : NotificationHandle :=
  NotificationHandle.for_zbus 7 demoConnection demoNotification

/-- A concrete facade handle of the legacy (dbus) variant. -/
def demoDbusHandle : NotificationHandle :=
  NotificationHandle.for_dbus 5 demoConnection demoNotification

/-- An environment with the `ZBUS` toggle set. -/
def demoEnvZbus : EnvMap := fun name => if name = "ZBUS" then some "1" else none

/-- An environment with no variable set. -/
def demoEnvEmpty : EnvMap := fun _ => none

/-! Helper lemmas about successful sends. -/

/-- Anatomy of a successful zbus `connect_and_send_notification`: the
session was opened on the handle's connection, the "Notify" call with
replace-identifier `notification.id.unwrap_or(0)` returned the handle's
identifier, and the handle stores the notification snapshot. -/
lemma zbus_connect_ok (bus : Bus) (n : Notification)
    (h : zbus_rs.ZbusNotificationHandle)
    (hok : zbus_rs.connect_and_send_notification bus n = .ok h) :
    bus.zbus_new_session = .ok h.connection ∧
    bus.zbus_notify h.connection (zbus_rs.notify_args n (n.id.getD 0)) =
      .ok h.id ∧
    h.notification = n := by
  unfold zbus_rs.connect_and_send_notification at hok
  cases hs : bus.zbus_new_session with
  | error msg => rw [hs] at hok; exact absurd hok (by simp)
  | ok connection =>
    rw [hs] at hok
    simp only [zbus_rs.send_notificaion_via_connection] at hok
    cases hn : bus.zbus_notify connection (zbus_rs.notify_args n (n.id.getD 0)) with
    | busError msg => rw [hn] at hok; exact absurd hok (by simp)
    | decodeFailure => rw [hn] at hok; exact absurd hok (by simp)
    | ok reply =>
      rw [hn] at hok
      cases hok
      exact ⟨rfl, hn, rfl⟩

/-- Anatomy of a successful legacy `connect_and_send_notification`,
mirroring `zbus_connect_ok`. -/
lemma dbus_connect_ok (bus : Bus) (n : Notification)
    (h : dbus_rs.DbusNotificationHandle)
    (hok : dbus_rs.connect_and_send_notification bus n = .ok h) :
    bus.dbus_new_session = .ok h.connection ∧
    bus.dbus_notify h.connection (dbus_rs.notify_args n (n.id.getD 0)) =
      .ok h.id ∧
    h.notification = n := by
  unfold dbus_rs.connect_and_send_notification at hok
  cases hs : bus.dbus_new_session with
  | error msg => rw [hs] at hok; exact absurd hok (by simp)
  | ok connection =>
    rw [hs] at hok
    simp only [dbus_rs.send_notification] at hok
    cases hn : bus.dbus_notify connection (dbus_rs.notify_args n (n.id.getD 0)) with
    | busError msg => rw [hn] at hok; exact absurd hok (by simp)
    | decodeFailure => rw [hn] at hok; exact absurd hok (by simp)
    | ok reply =>
      rw [hn] at hok
      cases hok
      exact ⟨rfl, hn, rfl⟩

/-- A handle returned by a successful `show_notification` stores the sent
notification as its snapshot. -/
lemma show_ok_deref (env : EnvMap) (bus : Bus) (n : Notification)
    (h : NotificationHandle) (hok : show_notification env bus n = .ok h) :
    h.deref = n := by
  unfold show_notification at hok
  by_cases ht : (env "ZBUS").isSome
  · rw [if_pos ht] at hok
    cases hc : zbus_rs.connect_and_send_notification bus n with
    | error e => rw [hc] at hok; exact absurd hok (by simp [Except.map])
    | ok hz =>
      rw [hc] at hok
      simp only [Except.map] at hok
      cases hok
      exact (zbus_connect_ok bus n hz hc).2.2
  · rw [if_neg ht] at hok
    cases hc : dbus_rs.connect_and_send_notification bus n with
    | error e => rw [hc] at hok; exact absurd hok (by simp [Except.map])
    | ok hd =>
      rw [hc] at hok
      simp only [Except.map] at hok
      cases hok
      exact (dbus_connect_ok bus n hd hc).2.2

/-- The backend tag of a handle returned by a successful
`show_notification` is zbus exactly when the toggle was set. -/
lemma show_ok_backend (env : EnvMap) (bus : Bus) (n : Notification)
    (h : NotificationHandle) (hok : show_notification env bus n = .ok h) :
    h.backend = (if (env "ZBUS").isSome then Backend.zbus else Backend.dbus) := by
  unfold show_notification at hok
  by_cases ht : (env "ZBUS").isSome
  · rw [if_pos ht] at hok
    rw [if_pos ht]
    cases hc : zbus_rs.connect_and_send_notification bus n with
    | error e => rw [hc] at hok; exact absurd hok (by simp [Except.map])
    | ok hz =>
      rw [hc] at hok
      simp only [Except.map] at hok
      cases hok
      rfl
  · rw [if_neg ht] at hok
    rw [if_neg ht]
    cases hc : dbus_rs.connect_and_send_notification bus n with
    | error e => rw [hc] at hok; exact absurd hok (by simp [Except.map])
    | ok hd =>
      rw [hc] at hok
      simp only [Except.map] at hok
      cases hok
      rfl

/-- `update` never changes the backend tag of a handle. -/
lemma update_preserves_backend (bus : Bus) (h : NotificationHandle) :
    ((NotificationHandle.update bus h).1).backend = h.backend := by
  obtain ⟨inner⟩ := h
  cases inner with
  | dbus i =>
    simp only [NotificationHandle.update, dbus_rs.DbusNotificationHandle.update]
    cases dbus_rs.send_notification bus i.notification i.id i.connection <;> rfl
  | zbus i =>
    simp only [NotificationHandle.update, zbus_rs.ZbusNotificationHandle.update]
    cases zbus_rs.send_notificaion_via_connection bus i.notification i.id i.connection <;> rfl

/-! Claim theorems. -/

/-- C1: for every notification, a successful
`connect_and_send_notification` opened a new session connection, invoked
"Notify" with replace-identifier `notification.id.unwrap_or(0)`,
interpreted the unsigned 32-bit reply as the server-assigned identifier,
and returned a handle bound to that identifier and the open connection
whose facade `id()` equals the reply. -/
theorem connect_and_send_notification_spec (bus : Bus) (n : Notification)
    (h : zbus_rs.ZbusNotificationHandle)
    (hok : zbus_rs.connect_and_send_notification bus n = .ok h) :
    bus.zbus_new_session = .ok h.connection ∧
    bus.zbus_notify h.connection (zbus_rs.notify_args n (n.id.getD 0)) =
      .ok h.id ∧
    h.notification = n ∧
    NotificationHandle.id { inner := .zbus h } = h.id := by
  obtain ⟨h1, h2, h3⟩ := zbus_connect_ok bus n h hok
  exact ⟨h1, h2, h3, rfl⟩

/-- Witness for `connect_and_send_notification_spec` at the scenario
notification and the all-succeeding bus. -/
theorem connect_and_send_notification_spec_witness :
    okBus.zbus_new_session = .ok demoConnection ∧
    okBus.zbus_notify demoConnection (zbus_rs.notify_args demoNotification 0) =
      .ok 42 ∧
    demoNotification = demoNotification ∧
    NotificationHandle.id
      { inner := .zbus (zbus_rs.ZbusNotificationHandle.new 42 demoConnection demoNotification) } = 42 :=
  connect_and_send_notification_spec okBus demoNotification
    (zbus_rs.ZbusNotificationHandle.new 42 demoConnection demoNotification) rfl

/-- C2: `update` re-sends the stored notification snapshot with the
stored identifier as the replace-target of the variant's "Notify" call;
when that call succeeds with reply `v`, the handle's identifier becomes
`v` while its snapshot, connection and backend tag are unchanged, and no
panic occurs, leaving the handle usable. -/
theorem update_resends_stored_snapshot (bus : Bus) (h : NotificationHandle)
    (v : Nat)
    (hok : variantNotify bus h.backend h.connectionOf
      (variant_notify_args h.backend h.deref h.id) = .ok v) :
    (NotificationHandle.update bus h).2 = none ∧
    ((NotificationHandle.update bus h).1).id = v ∧
    ((NotificationHandle.update bus h).1).deref = h.deref ∧
    ((NotificationHandle.update bus h).1).connectionOf = h.connectionOf ∧
    ((NotificationHandle.update bus h).1).backend = h.backend := by
  obtain ⟨inner⟩ := h
  cases inner with
  | dbus i =>
    have hok2 : bus.dbus_notify i.connection
        (dbus_rs.notify_args i.notification i.id) = .ok v := hok
    have hs : dbus_rs.send_notification bus i.notification i.id i.connection =
        .ok v := by
      unfold dbus_rs.send_notification
      rw [hok2]
    have hvar : dbus_rs.DbusNotificationHandle.update bus i =
        ({ i with id := v }, none) := by
      unfold dbus_rs.DbusNotificationHandle.update
      rw [hs]
    simp [NotificationHandle.update, hvar, NotificationHandle.id,
      NotificationHandle.deref, NotificationHandle.connectionOf,
      NotificationHandle.backend]
  | zbus i =>
    have hok2 : bus.zbus_notify i.connection
        (zbus_rs.notify_args i.notification i.id) = .ok v := hok
    have hs : zbus_rs.send_notificaion_via_connection bus i.notification i.id
        i.connection = .ok v := by
      unfold zbus_rs.send_notificaion_via_connection
      rw [hok2]
    have hvar : zbus_rs.ZbusNotificationHandle.update bus i =
        ({ i with id := v }, none) := by
      unfold zbus_rs.ZbusNotificationHandle.update
      rw [hs]
    simp [NotificationHandle.update, hvar, NotificationHandle.id,
      NotificationHandle.deref, NotificationHandle.connectionOf,
      NotificationHandle.backend]

/-- Witness for `update_resends_stored_snapshot` at a concrete zbus
handle on the all-succeeding bus. -/
theorem update_resends_stored_snapshot_witness :
    (NotificationHandle.update okBus demoZbusHandle).2 = none ∧
    ((NotificationHandle.update okBus demoZbusHandle).1).id = 42 ∧
    ((NotificationHandle.update okBus demoZbusHandle).1).deref =
      demoZbusHandle.deref ∧
    ((NotificationHandle.update okBus demoZbusHandle).1).connectionOf =
      demoZbusHandle.connectionOf ∧
    ((NotificationHandle.update okBus demoZbusHandle).1).backend =
      demoZbusHandle.backend :=
  update_resends_stored_snapshot okBus demoZbusHandle 42 rfl

/-- C3: a successful `show_notification` selects the modern (zbus)
variant exactly when the `ZBUS` environment toggle is set and the legacy
(dbus) variant otherwise; `get_server_information` follows the same
selection; and the chosen tag is fixed: `update`, the one by-reference
mutator, never changes it. -/
theorem backend_selection_via_env_toggle (env : EnvMap) (bus : Bus)
    (n : Notification) (h : NotificationHandle)
    (hok : show_notification env bus n = .ok h) :
    (h.backend = Backend.zbus ↔ (env "ZBUS").isSome = true) ∧
    (h.backend = Backend.dbus ↔ (env "ZBUS").isSome = false) ∧
    ((env "ZBUS").isSome = true →
      get_server_information env bus = zbus_rs.get_server_information bus) ∧
    ((env "ZBUS").isSome = false →
      get_server_information env bus = dbus_rs.get_server_information bus) ∧
    ∀ bus2, ((NotificationHandle.update bus2 h).1).backend = h.backend := by
  have hb := show_ok_backend env bus n h hok
  by_cases ht : (env "ZBUS").isSome
  · rw [if_pos ht] at hb
    refine ⟨?_, ?_, ?_, ?_, fun bus2 => update_preserves_backend bus2 h⟩
    · exact ⟨fun _ => ht, fun _ => hb⟩
    · constructor
      · intro hc; rw [hb] at hc; cases hc
      · intro hc; rw [ht] at hc; cases hc
    · intro _; simp only [get_server_information, if_pos ht]
    · intro hc; rw [ht] at hc; cases hc
  · rw [if_neg ht] at hb
    have hfalse : (env "ZBUS").isSome = false := by
      cases hv : env "ZBUS" with
      | none => rfl
      | some s => exact absurd (by rw [hv]; rfl) ht
    refine ⟨?_, ?_, ?_, ?_, fun bus2 => update_preserves_backend bus2 h⟩
    · constructor
      · intro hc; rw [hb] at hc; cases hc
      · intro hc; rw [hfalse] at hc; cases hc
    · exact ⟨fun _ => hfalse, fun _ => hb⟩
    · intro hc; rw [hfalse] at hc; cases hc
    · intro _; simp only [get_server_information, if_neg ht]

/-- Witness for `backend_selection_via_env_toggle` with the toggle set on
the all-succeeding bus. -/
theorem backend_selection_via_env_toggle_witness :
    ((NotificationHandle.for_zbus 42 demoConnection demoNotification).backend
        = Backend.zbus ↔ (demoEnvZbus "ZBUS").isSome = true) ∧
    ((NotificationHandle.for_zbus 42 demoConnection demoNotification).backend
        = Backend.dbus ↔ (demoEnvZbus "ZBUS").isSome = false) ∧
    ((demoEnvZbus "ZBUS").isSome = true →
      get_server_information demoEnvZbus okBus =
        zbus_rs.get_server_information okBus) ∧
    ((demoEnvZbus "ZBUS").isSome = false →
      get_server_information demoEnvZbus okBus =
        dbus_rs.get_server_information okBus) ∧
    ∀ bus2, ((NotificationHandle.update bus2
        (NotificationHandle.for_zbus 42 demoConnection demoNotification)).1).backend =
      (NotificationHandle.for_zbus 42 demoConnection demoNotification).backend :=
  backend_selection_via_env_toggle demoEnvZbus okBus demoNotification
    (NotificationHandle.for_zbus 42 demoConnection demoNotification) rfl

/-- C4: when the bus call issued by `update` fails (the `.unwrap()`
panics, recorded as the second component), the handle and in particular
its previously-known identifier are unchanged. -/
theorem failed_update_preserves_id (bus : Bus) (h : NotificationHandle)
    (e : Err) (hfail : (NotificationHandle.update bus h).2 = some e) :
    ((NotificationHandle.update bus h).1).id = h.id ∧
    (NotificationHandle.update bus h).1 = h := by
  obtain ⟨inner⟩ := h
  cases inner with
  | dbus i =>
    simp only [NotificationHandle.update, dbus_rs.DbusNotificationHandle.update] at hfail ⊢
    cases hs : dbus_rs.send_notification bus i.notification i.id i.connection with
    | ok v => rw [hs] at hfail; exact absurd hfail (by simp)
    | error e2 => exact ⟨rfl, rfl⟩
  | zbus i =>
    simp only [NotificationHandle.update, zbus_rs.ZbusNotificationHandle.update] at hfail ⊢
    cases hs : zbus_rs.send_notificaion_via_connection bus i.notification i.id i.connection with
    | ok v => rw [hs] at hfail; exact absurd hfail (by simp)
    | error e2 => exact ⟨rfl, rfl⟩

/-- Witness for `failed_update_preserves_id` at a concrete zbus handle on
the all-failing bus. -/
theorem failed_update_preserves_id_witness :
    ((NotificationHandle.update errBus demoZbusHandle).1).id =
      demoZbusHandle.id ∧
    (NotificationHandle.update errBus demoZbusHandle).1 = demoZbusHandle :=
  failed_update_preserves_id errBus demoZbusHandle
    (Err.bus "service not running") rfl

/-- C5 counterexample: the facade `close` returns unit, so the caller
observes exactly the same outcome whether the underlying
"CloseNotification" call fails or succeeds — for the legacy variant (not
the stubbed one) the error is not surfaced as a `Result`; it is
swallowed. -/
theorem close_error_not_surfaced :
    errBus.dbus_close_notification demoConnection 5 =
      CallResult.busError "service not running" ∧
    NotificationHandle.close errBus demoDbusHandle =
      NotificationHandle.close okBus demoDbusHandle ∧
    (NotificationHandle.close errBus demoDbusHandle).1 =
      CloseOutcome.returned :=
  ⟨rfl, rfl, rfl⟩

/-- C5 amended: `close` consumes the handle and returns unit.  The legacy
variant issues the "CloseNotification" call for the handle's identifier
but discards the outcome of that call; the modern variant is a
known-incomplete stub that panics without issuing any bus call. -/
theorem close_behavior (bus : Bus) (h : NotificationHandle) :
    (h.backend = Backend.dbus →
      NotificationHandle.close bus h =
        (CloseOutcome.returned,
         [BusCall.closeNotification h.connectionOf h.id])) ∧
    (h.backend = Backend.zbus →
      NotificationHandle.close bus h =
        (CloseOutcome.panicked "can not close notification yet", [])) := by
  obtain ⟨inner⟩ := h
  cases inner with
  | dbus i =>
    refine ⟨fun _ => rfl, fun hc => ?_⟩
    simp [NotificationHandle.backend] at hc
  | zbus i =>
    refine ⟨fun hc => ?_, fun _ => rfl⟩
    simp [NotificationHandle.backend] at hc

/-- Witness for `close_behavior` at a concrete legacy handle. -/
theorem close_behavior_witness :
    NotificationHandle.close okBus demoDbusHandle =
      (CloseOutcome.returned, [BusCall.closeNotification demoConnection 5]) :=
  (close_behavior okBus demoDbusHandle).1 rfl

/-- C6: `on_close` invokes the user closure only when the action name
delivered by the wait is the synthetic `"__closed"` marker; when the
delivered name is any other string the closure is not invoked and the
name is discarded (the legacy wait yields `invoked none`; the modern wait
is a stub that panics before delivering anything). -/
theorem on_close_only_synthetic_marker {α : Type} (h : NotificationHandle)
    (signals : List Signal) (closure : Unit → α) :
    (∀ x, NotificationHandle.on_close h signals closure =
        WaitOutcome.invoked (some x) →
      dbus_rs.first_matching_action h.id signals = some "__closed" ∧
      x = closure ()) ∧
    (∀ a, dbus_rs.first_matching_action h.id signals = some a →
      a ≠ "__closed" →
      NotificationHandle.on_close h signals closure = .invoked none ∨
      NotificationHandle.on_close h signals closure =
        .panicked "no action handling yet") := by
  obtain ⟨inner⟩ := h
  cases inner with
  | dbus i =>
    constructor
    · intro x hx
      simp only [NotificationHandle.on_close,
        dbus_rs.DbusNotificationHandle.wait_for_action,
        dbus_rs.handle_action] at hx
      cases hm : dbus_rs.first_matching_action i.id signals with
      | none => rw [hm] at hx; exact absurd hx (by simp)
      | some action =>
        rw [hm] at hx
        by_cases hc : action = "__closed"
        · constructor
          · simp only [NotificationHandle.id]
            rw [hm, hc]
          · rw [hc] at hx
            simp at hx
            exact hx.symm
        · simp [hc] at hx
    · intro a ha hne
      left
      simp only [NotificationHandle.id] at ha
      simp [NotificationHandle.on_close,
        dbus_rs.DbusNotificationHandle.wait_for_action,
        dbus_rs.handle_action, ha, hne]
  | zbus i =>
    constructor
    · intro x hx
      simp [NotificationHandle.on_close,
        zbus_rs.ZbusNotificationHandle.wait_for_action] at hx
    · intro a _ _
      right
      rfl

/-- Witness for `on_close_only_synthetic_marker`: a delivered ordinary
action name on a legacy handle leaves the closure uninvoked. -/
theorem on_close_only_synthetic_marker_witness :
    NotificationHandle.on_close demoDbusHandle
        [Signal.actionInvoked 5 "default"] (fun _ => (1 : Nat)) =
      WaitOutcome.invoked none ∨
    NotificationHandle.on_close demoDbusHandle
        [Signal.actionInvoked 5 "default"] (fun _ => (1 : Nat)) =
      WaitOutcome.panicked "no action handling yet" :=
  (on_close_only_synthetic_marker demoDbusHandle
      [Signal.actionInvoked 5 "default"] (fun _ => (1 : Nat))).2
    "default" rfl (by decide)

/-- C7: the module-level `get_capabilities` delegates to the legacy
backend for every environment, in particular independently of the toggle
that switches the other entry points. -/
theorem get_capabilities_always_legacy (env env2 : EnvMap) (bus : Bus) :
    get_capabilities env bus = dbus_rs.get_capabilities bus ∧
    get_capabilities env bus = get_capabilities env2 bus :=
  ⟨rfl, rfl⟩

/-- C8: the notification value is cloned into the handle at send time: a
handle produced by a successful send stores the sent value as its
snapshot, and a later mutation of the caller's own notification value
leaves the handle's snapshot unchanged. -/
theorem handle_snapshot_isolated_from_caller (env : EnvMap) (bus : Bus)
    (n : Notification) (w : CallerWorld) (f : Notification → Notification)
    (hok : send_world env bus n = .ok w) :
    ((mutate_caller f w).handle).deref = (w.handle).deref ∧
    (w.handle).deref = n := by
  unfold send_world at hok
  cases hs : show_notification env bus n with
  | error e => rw [hs] at hok; exact absurd hok (by simp [Except.map])
  | ok h0 =>
    rw [hs] at hok
    simp only [Except.map] at hok
    cases hok
    exact ⟨rfl, show_ok_deref env bus n h0 hs⟩

/-- The world of a concrete successful legacy send. -/
def demoWorld : CallerWorld :=
  { caller := demoNotification
    handle :=
      { inner := .dbus
          (dbus_rs.DbusNotificationHandle.new 9 demoConnection demoNotification) } }

/-- Witness for `handle_snapshot_isolated_from_caller` at a concrete
send followed by a summary change on the caller's value. -/
theorem handle_snapshot_isolated_from_caller_witness :
    ((mutate_caller (fun nn => { nn with summary := "changed" })
        demoWorld).handle).deref = (demoWorld.handle).deref ∧
    (demoWorld.handle).deref = demoNotification :=
  handle_snapshot_isolated_from_caller demoEnvEmpty okBus demoNotification
    demoWorld (fun nn => { nn with summary := "changed" }) rfl

/-- C9: both backends marshal the same notification payload and
replace-identifier into the same "Notify" positional argument tuple
(appname, id, icon, summary, body, actions, hints, timeout). -/
theorem notify_args_wire_equivalent (n : Notification) (id : Nat) :
    zbus_rs.notify_args n id = dbus_rs.notify_args n id :=
  rfl

/-- C10: the module-level `handle_action` subscribes through the legacy
backend for every environment, in particular independently of the toggle
that switches `show_notification`. -/
theorem handle_action_always_legacy {α : Type} (env env2 : EnvMap) (id : Nat)
    (signals : List Signal) (func : String → α) :
    handle_action env id signals func = dbus_rs.handle_action id signals func ∧
    handle_action env id signals func = handle_action env2 id signals func :=
  ⟨rfl, rfl⟩

end NotifyRust
